import Mathlib

/-!
Verification of the wyandata system-monitor client (src/system_monitor.py).

The development shallowly embeds the parts of the client that the
specification talks about: client-identifier resolution, metric
collection, storage and network inventory, the registration wait loop,
the streaming (metrics publishing) loop, and the supervisor reconnect
loop.  All effectful inputs (psutil probes, subprocess output, received
frames, send outcomes) are supplied explicitly through environment
structures, so every definition is a total, executable function that
mirrors the Python control flow line by line.  Time is modelled in
deciseconds (the registration wait uses a 10 s window with a 2 s
per-receive timeout, i.e. 100 and 20 deciseconds); numeric measurement
values are carried as integers since only their routing, not their
arithmetic, is specified.
-/

namespace SystemMonitor

/-! ## Character-list string helpers (kernel-computable) -/

/-- Substring test on character lists: does `hay` contain `needle`? -/
def listContains (needle : List Char) : List Char → Bool
  | [] => needle.isEmpty
  | c :: tl => List.isPrefixOf needle (c :: tl) || listContains needle tl

/-- Python `sub in hay` substring containment. -/
def strContains (hay sub : String) : Bool :=
  listContains sub.data hay.data

/-- Python `s.startswith(pre)`. -/
def strStartsWith (s pre : String) : Bool :=
  List.isPrefixOf pre.data s.data

/-- Python `s.lower()` (ASCII). -/
def strToLower (s : String) : String :=
  String.mk (s.data.map Char.toLower)

/-- Python `s.strip()`. -/
def strTrim (s : String) : String :=
  String.mk (((s.data.dropWhile Char.isWhitespace).reverse.dropWhile Char.isWhitespace).reverse)

/-- Helper for `splitChar`. -/
def splitCharAux (sep : Char) : List Char → List Char → List (List Char)
  | [], acc => [acc.reverse]
  | c :: tl, acc =>
    if c = sep then acc.reverse :: splitCharAux sep tl []
    else splitCharAux sep tl (c :: acc)

/-- Python `s.split(sep)` for a one-character separator. -/
def splitChar (sep : Char) (s : String) : List String :=
  (splitCharAux sep s.data []).map String.mk

/-- Join strings with a separator (used to undo a maxsplit-1 split). -/
def joinWith (sep : String) : List String → String
  | [] => ""
  | [x] => x
  | x :: xs => x ++ sep ++ joinWith sep xs

/-- Python `a or b` on strings: `b` if `a` is empty, else `a`. -/
def strOrElse (a b : String) : String :=
  if a = "" then b else a

/-- Python `int(s)` on a trimmed string: optional sign followed by digits. -/
def natOfDigitsAux : Option Nat → List Char → Option Nat
  | acc, [] => acc
  | acc, c :: tl =>
    if c.isDigit then natOfDigitsAux (some ((acc.getD 0) * 10 + (c.toNat - 48))) tl
    else none

/-- All-digit parse of a character list (none if empty or non-digit). -/
def natOfDigits (l : List Char) : Option Nat :=
  natOfDigitsAux none l

/-- Python `int(s)` for a stripped decimal literal. -/
def parseInt (s : String) : Option Int :=
  match s.data with
  | '-' :: tl => (natOfDigits tl).map (fun n => -(n : Int))
  | '+' :: tl => (natOfDigits tl).map (fun n => (n : Int))
  | l => (natOfDigits l).map (fun n => (n : Int))

/-! ## Client identifier resolution (`get_client_id`, lines 54-85)

The configuration lookup `CONFIG and 'system' in CONFIG and 'client_id'
in CONFIG['system']` is modelled by `configClientId : Option String`;
the identifier file by `file : Option String` (`none` when the file does
not exist).  `readOk = false` models the open/read of an existing file
raising, which the Python catches in the outermost handler and answers
with a second fresh uuid (`fallbackFresh`).  `writeOk = false` models
the persistence write raising, which is logged and swallowed. -/

structure ClientIdEnv where
  configClientId : Option String
  file : Option String
  readOk : Bool
  fresh : String
  writeOk : Bool
  fallbackFresh : String

/-- The generate-and-try-to-save tail of `get_client_id` (lines 70-82).
Returns the resulting identifier and the file content afterwards. -/
def freshClientId (env : ClientIdEnv) : String × Option String :=
  if env.writeOk then (env.fresh, some env.fresh) else (env.fresh, env.file)

/-- `get_client_id` (lines 54-85): configuration value first, then a
non-empty stripped file content, then a freshly generated identifier
that the function tries to persist. -/
def get_client_id (env : ClientIdEnv) : String × Option String :=
  match env.configClientId with
  | some cid => (cid, env.file)
  | none =>
    match env.file with
    | some content =>
      if env.readOk then
        let cid := strTrim content
        if cid ≠ "" then (cid, env.file) else freshClientId env
      else (env.fallbackFresh, env.file)
    | none => freshClientId env

/-! ## Metric collection (`collect_metrics`, lines 616-740)

Each psutil acquisition is an `Except Unit` value in `MetricsEnv`
(`Except.error` models the call raising).  The whole Python function is
wrapped in one `try/except` that answers `{}`; only the per-partition
`disk_usage` call has an inner handler, and it catches only
`PermissionError` and `FileNotFoundError`.  Measurement magnitudes are
carried as `Int` (the claims are about which keys are present, not
about float arithmetic). -/

/-- The exception raised by a `psutil.disk_usage` call. -/
inductive DiskErr where
  | permission
  | notFound
  | other
deriving DecidableEq, Repr

/-- One entry of the metrics dictionary (value plus its annotations). -/
structure Metric where
  value : Int
  unit : String
  data_type : String
  category : String
  storage_device : Option String := none
  network_interface : Option String := none
deriving DecidableEq, Repr

/-- Host probes consumed by `collect_metrics`. -/
structure MetricsEnv where
  cpu_percent : Except Unit Int
  virtual_memory : Except Unit (Int × Int)
  swap_memory : Except Unit (Int × Int)
  boot_time : Except Unit Int
  pids : Except Unit (List Nat)
  getloadavg : Option (Except Unit (Int × Int × Int))
  disk_partitions : Except Unit (List String)
  disk_usage : String → Except DiskErr (Int × Int)
  net_io_counters : Except Unit (List (String × Int × Int))

/-- Python dict assignment `metrics[k] = v`: overwrite in place if the
key exists, otherwise append. -/
def dinsert (l : List (String × Metric)) (k : String) (v : Metric) : List (String × Metric) :=
  if l.any (fun p => decide (p.1 = k)) then
    l.map (fun p => if p.1 = k then (k, v) else p)
  else l ++ [(k, v)]

/-- Python `mountpoint.replace(':','').replace('\\','/').replace(' ','_')`. -/
def sanitizePartitionName (mp : String) : String :=
  String.mk ((mp.data.filter (fun c => c ≠ ':')).map
    (fun c => if c = '\\' then '/' else if c = ' ' then '_' else c))

/-- The per-partition disk-usage loop (lines 693-713).  `none` models an
exception other than `PermissionError`/`FileNotFoundError` escaping to
the outer handler of `collect_metrics`. -/
def diskLoop (du : String → Except DiskErr (Int × Int)) (acc : List (String × Metric)) :
    List String → Option (List (String × Metric))
  | [] => some acc
  | mp :: rest =>
    match du mp with
    | Except.error DiskErr.permission => diskLoop du acc rest
    | Except.error DiskErr.notFound => diskLoop du acc rest
    | Except.error DiskErr.other => none
    | Except.ok usage =>
      let partition_name := sanitizePartitionName mp
      diskLoop du
        (dinsert
          (dinsert acc ("disk_used_" ++ partition_name)
            { value := usage.1, unit := "bytes", data_type := "INT",
              category := "STORAGE", storage_device := some mp })
          ("disk_percent_" ++ partition_name)
          { value := usage.2, unit := "%", data_type := "FLOAT",
            category := "STORAGE", storage_device := some mp })
        rest

/-- The per-interface network IO loop (lines 716-735). -/
def netLoop (acc : List (String × Metric)) : List (String × Int × Int) → List (String × Metric)
  | [] => acc
  | (iface, counters) :: rest =>
    if strStartsWith iface "lo" || strStartsWith iface "veth" then netLoop acc rest
    else
      netLoop
        (dinsert
          (dinsert acc ("net_bytes_sent_" ++ iface)
            { value := counters.1, unit := "bytes", data_type := "INT",
              category := "NETWORK", network_interface := some iface })
          ("net_bytes_recv_" ++ iface)
          { value := counters.2, unit := "bytes", data_type := "INT",
            category := "NETWORK", network_interface := some iface })
        rest

/-- Disk and network stages of `collect_metrics` (lines 692-737), after
the load averages have been added to `acc`. -/
def afterLoad (env : MetricsEnv) (acc : List (String × Metric)) : List (String × Metric) :=
  match env.disk_partitions with
  | Except.error _ => []
  | Except.ok parts =>
    match diskLoop env.disk_usage acc parts with
    | none => []
    | some acc2 =>
      match env.net_io_counters with
      | Except.error _ => []
      | Except.ok nios => netLoop acc2 nios

/-- `collect_metrics` (lines 616-740).  Any acquisition raising outside
the per-partition handler makes the whole call answer the empty
mapping, because the single outer `except` returns `{}`. -/
def collect_metrics (env : MetricsEnv) : List (String × Metric) :=
  match env.cpu_percent with
  | Except.error _ => []
  | Except.ok cpu =>
  match env.virtual_memory with
  | Except.error _ => []
  | Except.ok memory =>
  match env.swap_memory with
  | Except.error _ => []
  | Except.ok swap =>
  match env.boot_time with
  | Except.error _ => []
  | Except.ok bt =>
  match env.pids with
  | Except.error _ => []
  | Except.ok processIds =>
  let metrics : List (String × Metric) :=
    [("cpu_usage", { value := cpu, unit := "%", data_type := "FLOAT", category := "CPU" }),
     ("memory_used", { value := memory.1, unit := "bytes", data_type := "INT", category := "MEMORY" }),
     ("memory_percent", { value := memory.2, unit := "%", data_type := "FLOAT", category := "MEMORY" }),
     ("swap_used", { value := swap.1, unit := "bytes", data_type := "INT", category := "MEMORY" }),
     ("swap_percent", { value := swap.2, unit := "%", data_type := "FLOAT", category := "MEMORY" }),
     ("boot_time", { value := bt, unit := "timestamp", data_type := "INT", category := "SYSTEM" }),
     ("process_count", { value := Int.ofNat processIds.length, unit := "count", data_type := "INT", category := "SYSTEM" })]
  match env.getloadavg with
  | some (Except.error _) => []
  | some (Except.ok loads) =>
    afterLoad env
      (metrics ++
       [("load_avg_1min", { value := loads.1, unit := "load", data_type := "FLOAT", category := "SYSTEM" }),
        ("load_avg_5min", { value := loads.2.1, unit := "load", data_type := "FLOAT", category := "SYSTEM" }),
        ("load_avg_15min", { value := loads.2.2, unit := "load", data_type := "FLOAT", category := "SYSTEM" })])
  | none => afterLoad env metrics

/-! ## Storage inventory (`collect_storage_devices`, lines 267-511)

A configured `storage` section (key/value items of the ini section)
switches the function to an explicit allow-list; otherwise the large
auto-detection path runs.  OS probes (sysfs rotational flag, smartctl,
diskutil) are environment oracles returning the raw text the Python
parses; everything else — filtering, regex-equivalent device-name
parsing, physical-device grouping, primary-partition selection — is
embedded directly. -/

/-- One `psutil.disk_partitions` entry. -/
structure Partition where
  device : String
  mountpoint : String
  fstype : String
deriving DecidableEq, Repr

/-- A partition record stored under a physical device (lines 448-452). -/
structure PartRec where
  mountpoint : String
  device : String
  total_bytes : Nat
deriving DecidableEq, Repr

/-- Grouping entry of the `physical_devices` dict (lines 434-438). -/
structure PhysEntry where
  device_type : String
  partitions : List PartRec
deriving DecidableEq, Repr

/-- One reported storage device (lines 292-297 and 495-501). -/
structure StorageDevice where
  id : String
  name : String
  device_type : String
  total_bytes : Nat
deriving DecidableEq, Repr

/-- Host state and OS probes consumed by `collect_storage_devices`.
`uuids` enumerates the `uuid.uuid4()` draws in the order the Python
makes them; oracles model subprocess/sysfs reads (`Except.error` is the
call raising, `rotational = none` is the sysfs file being absent). -/
structure StorageEnv where
  platform : String
  disk_partitions : Except Unit (List Partition)
  disk_usage : String → Except DiskErr Nat
  uuids : Nat → String
  rotational : String → Option String
  smartctl : String → Except Unit String
  diskutil_info_mount : String → Except Unit String
  diskutil_info_disk : String → Except Unit String

/-- `re.sub(r'p?\d+$', '', device_path)` (line 228): drop a maximal
trailing digit run together with at most one `p` directly before it. -/
def stripPartitionSuffix (device_path : String) : String :=
  let rev := device_path.data.reverse
  let digits := rev.takeWhile Char.isDigit
  if digits.isEmpty then device_path
  else
    match rev.drop digits.length with
    | 'p' :: tl => String.mk tl.reverse
    | tl => String.mk tl.reverse

/-- Name-based fallback of `get_linux_drive_type` (lines 254-262). -/
def linuxNameBasedType (device_path : String) : String :=
  let device_lower := strToLower device_path
  if strContains device_lower "nvme" || strContains device_lower "ssd" then "SSD"
  else if strContains device_lower "sd" then "HDD"
  else "unknown"

/-- `get_linux_drive_type` (lines 220-265): sysfs rotational flag, then
smartctl output, then name-based detection. -/
def get_linux_drive_type (env : StorageEnv) (device_path : String) : String :=
  if strContains device_path "/dev/" then
    let base_device := stripPartitionSuffix device_path
    let device_name := (splitChar '/' base_device).getLastD ""
    match env.rotational device_name with
    | some content =>
      match parseInt (strTrim content) with
      | some r => if r = 1 then "HDD" else "SSD"
      | none => "unknown"
    | none =>
      match env.smartctl base_device with
      | Except.ok out =>
        let low := strToLower out
        if strContains low "solid state device" || strContains low "ssd" then "SSD"
        else if strContains low "rotation rate" || strContains low "rpm" then "HDD"
        else linuxNameBasedType device_path
      | Except.error _ => linuxNameBasedType device_path
  else "unknown"

/-- `re.match(r'(/dev/nvme[0-9]+n[0-9]+)p?[0-9]*', device)` group 1. -/
def nvmeMatch (device : String) : Option String :=
  if strStartsWith device "/dev/nvme" then
    let rest := (device.data.drop 9)
    let d1 := rest.takeWhile Char.isDigit
    if d1.isEmpty then none
    else
      match rest.drop d1.length with
      | 'n' :: tl =>
        let d2 := tl.takeWhile Char.isDigit
        if d2.isEmpty then none
        else some ("/dev/nvme" ++ String.mk d1 ++ "n" ++ String.mk d2)
      | _ => none
  else none

/-- `re.match(r'(/dev/[a-zA-Z]+)[0-9]*', device)` group 1. -/
def stdDeviceMatch (device : String) : Option String :=
  if strStartsWith device "/dev/" then
    let letters := (device.data.drop 5).takeWhile Char.isAlpha
    if letters.isEmpty then none else some ("/dev/" ++ String.mk letters)
  else none

/-- macOS volume patterns skipped outright (lines 318-327). -/
def macSkipPatterns : List String :=
  ["/Library/Developer/CoreSimulator", "/Volumes/com.apple", "/private/var/vm",
   "/System/Volumes/VM", "/System/Volumes/Preboot", "/System/Volumes/Data",
   "/System/Volumes/Update", "TimeMachine"]

/-- Membership test of the `physical_devices` dict. -/
def physMem (l : List (String × PhysEntry)) (k : String) : Bool :=
  l.any (fun p => decide (p.1 = k))

/-- Insert a fresh `physical_devices` entry if the key is absent. -/
def physInsert (l : List (String × PhysEntry)) (k : String) (e : PhysEntry) :
    List (String × PhysEntry) :=
  if physMem l k then l else l ++ [(k, e)]

/-- `physical_devices[k]["partitions"].append(r)`. -/
def physAppendPart (l : List (String × PhysEntry)) (k : String) (r : PartRec) :
    List (String × PhysEntry) :=
  l.map (fun p =>
    if p.1 = k then (p.1, { p.2 with partitions := p.2.partitions ++ [r] }) else p)

/-- Extract the parent disk from `diskutil info` output: the line
containing `Part of Whole:` split on the first colon, stripped
(lines 390-394). -/
def partOfWhole (out : String) : Option String :=
  match (splitChar '\n' out).find? (fun ln => strContains ln "Part of Whole:") with
  | none => none
  | some ln =>
    match splitChar ':' ln with
    | [] => none
    | _ :: rest => if rest.isEmpty then none else some (strTrim (joinWith ":" rest))

/-- Result of the macOS-specific block (lines 355-409): either the
partition is skipped as a non-physical drive, or processing continues
with the chosen physical device and the possibly extended dict. -/
inductive DarwinRes where
  | skip : DarwinRes
  | cont : Option String → List (String × PhysEntry) → DarwinRes

/-- The macOS branch of the first scan loop (lines 355-409).  The
drive-type probe has its own inner handler (`device_type = "unknown"`);
a failing `diskutil info <disk-id>` call lands in the outer handler of
the block, which just falls back to `device or mountpoint` without
registering a dict entry. -/
def darwinStep (env : StorageEnv) (pd : List (String × PhysEntry)) (p : Partition)
    (device : String) : DarwinRes :=
  let dtype : Option String :=
    if strStartsWith p.mountpoint "/Volumes/" then
      match env.diskutil_info_mount p.mountpoint with
      | Except.error _ => some "unknown"
      | Except.ok out =>
        let low := strToLower out
        let t :=
          if strContains low "solid state" || strContains low "ssd" then "SSD"
          else if strContains low "rotational" || strContains low "hard drive" || strContains low "hdd" then "HDD"
          else "SSD"
        if strContains low "network" || strContains low "virtual" || strContains low "synthesized" then none
        else some t
    else some "SSD"
  match dtype with
  | none => DarwinRes.skip
  | some device_type =>
    if strContains device "/dev/disk" then
      match env.diskutil_info_disk ((splitChar '/' device).getLastD "") with
      | Except.error _ => DarwinRes.cont (some (strOrElse device p.mountpoint)) pd
      | Except.ok out =>
        let physical_device :=
          match partOfWhole out with
          | some parent => "/dev/" ++ parent
          | none => strOrElse device p.mountpoint
        DarwinRes.cont (some physical_device)
          (physInsert pd physical_device { device_type := device_type, partitions := [] })
    else
      let physical_device := strOrElse device p.mountpoint
      DarwinRes.cont (some physical_device)
        (physInsert pd physical_device { device_type := device_type, partitions := [] })

/-- Name-based drive typing for non-Linux platforms (lines 428-432). -/
def otherNameBasedType (device : String) : String :=
  let dl := strToLower device
  if strContains dl "ssd" || strContains dl "nvme" || strContains dl "flash" then "SSD"
  else if strContains dl "sd" || strContains dl "hd" then "HDD"
  else "unknown"

/-- One iteration of the first scan loop of the auto-detection path
(lines 306-457).  `none` aborts to the outer handler (a `disk_usage`
exception other than `PermissionError`). -/
def processAutoPartition (env : StorageEnv) (pd : List (String × PhysEntry)) (p : Partition) :
    Option (List (String × PhysEntry)) :=
  if p.fstype = "" ∨ p.fstype = "squashfs" then some pd
  else if strContains (strToLower p.mountpoint) "efi" ∨
      strContains (strToLower p.mountpoint) "boot/efi" then some pd
  else if env.platform = "Darwin" ∧ macSkipPatterns.any (fun pat => strContains p.mountpoint pat) then
    some pd
  else if env.platform = "Darwin" ∧ ¬(p.mountpoint = "/" ∨ strStartsWith p.mountpoint "/Volumes/") then
    some pd
  else
    let device := p.device
    let darwin : DarwinRes :=
      if env.platform = "Linux" then
        DarwinRes.cont
          (if strContains (strToLower device) "nvme" then nvmeMatch device
           else stdDeviceMatch device) pd
      else if env.platform = "Darwin" then darwinStep env pd p device
      else if env.platform = "Windows" then DarwinRes.cont (some device) pd
      else DarwinRes.cont none pd
    match darwin with
    | DarwinRes.skip => some pd
    | DarwinRes.cont physOpt pd1 =>
      let physical_device :=
        match physOpt with
        | some x => if x = "" then strOrElse device p.mountpoint else x
        | none => strOrElse device p.mountpoint
      let pd2 :=
        if physMem pd1 physical_device then pd1
        else
          let device_type :=
            if env.platform = "Linux" then get_linux_drive_type env physical_device
            else otherNameBasedType device
          physInsert pd1 physical_device { device_type := device_type, partitions := [] }
      match env.disk_usage p.mountpoint with
      | Except.error DiskErr.permission => some pd2
      | Except.error _ => none
      | Except.ok total =>
        if total < 1000000000 then some pd2
        else some (physAppendPart pd2 physical_device
          { mountpoint := p.mountpoint, device := device, total_bytes := total })

/-- The first scan loop over all partitions. -/
def autoScan (env : StorageEnv) (pd : List (String × PhysEntry)) :
    List Partition → Option (List (String × PhysEntry))
  | [] => some pd
  | p :: rest =>
    match processAutoPartition env pd p with
    | none => none
    | some pd2 => autoScan env pd2 rest

/-- Mountpoint fragments that mark system partitions (line 483). -/
def storageSkipNames : List String := ["boot", "efi", "recovery", "system"]

/-- Selection of the non-root primary partitions (lines 477-492).
`none` models the macOS branch at line 488 evaluating
`partition.mountpoint` on a dict, an `AttributeError` that escapes to
the outer handler. -/
def primaryLoop (isDarwin : Bool) (root : Option PartRec) :
    List PartRec → Option (List PartRec)
  | [] => some []
  | q :: qs =>
    if (match root with
        | some r => decide (q.mountpoint = r.mountpoint)
        | none => false : Bool) then primaryLoop isDarwin root qs
    else if storageSkipNames.any (fun nm => strContains (strToLower q.mountpoint) nm) then
      primaryLoop isDarwin root qs
    else if isDarwin then none
    else (primaryLoop isDarwin root qs).map (fun l => q :: l)

/-- Emit one `storage_devices` record per primary partition, drawing
fresh ids (lines 494-501). -/
def buildDevs (env : StorageEnv) (k : Nat) (dtype : String) : List PartRec → List StorageDevice
  | [] => []
  | q :: qs =>
    { id := env.uuids k, name := q.mountpoint, device_type := dtype, total_bytes := q.total_bytes }
      :: buildDevs env (k + 1) dtype qs

/-- The second pass over the grouped physical devices (lines 459-501). -/
def autoBuild (env : StorageEnv) (k : Nat) :
    List (String × PhysEntry) → Option (List StorageDevice)
  | [] => some []
  | (_, entry) :: rest =>
    if entry.partitions.isEmpty then autoBuild env k rest
    else
      let root := entry.partitions.find? (fun q => decide (q.mountpoint = "/" ∨ q.mountpoint = "C:"))
      match primaryLoop (env.platform = "Darwin") root entry.partitions with
      | none => none
      | some others =>
        let primaries := (match root with | some r => [r] | none => []) ++ others
        (autoBuild env (k + primaries.length) rest).map
          (fun l => buildDevs env k entry.device_type primaries ++ l)

/-- The auto-detection path (lines 305-508); any exception escaping to
the outer handler answers the empty list. -/
def autoStorage (env : StorageEnv) : List StorageDevice :=
  match env.disk_partitions with
  | Except.error _ => []
  | Except.ok parts =>
    match autoScan env [] parts with
    | none => []
    | some pd =>
      match autoBuild env 0 pd with
      | none => []
      | some l => l

/-- Parse the `storage` section items: keys starting `device_`, values
`"<mountpoint>|<kind>"`; a value that does not split into exactly two
parts raises `ValueError`, is logged and skipped (lines 277-285). -/
def parseConfigDevices : List (String × String) → List (String × String)
  | [] => []
  | (k, v) :: rest =>
    if strStartsWith k "device_" then
      match splitChar '|' v with
      | [mountpoint, device_type] => (mountpoint, device_type) :: parseConfigDevices rest
      | _ => parseConfigDevices rest
    else parseConfigDevices rest

/-- The configured-device loop (lines 288-303): probe each configured
mountpoint, skip inaccessible ones, draw a fresh id per reported
device. -/
def configuredStorage (env : StorageEnv) : List (String × String) → Nat → List StorageDevice
  | [], _ => []
  | (mountpoint, device_type) :: rest, k =>
    match env.disk_usage mountpoint with
    | Except.ok total =>
      { id := env.uuids k, name := mountpoint, device_type := device_type, total_bytes := total }
        :: configuredStorage env rest (k + 1)
    | Except.error _ => configuredStorage env rest k

/-- `collect_storage_devices` (lines 267-511).  `storageSection` is the
`storage` ini section when present (`CONFIG and 'storage' in CONFIG`). -/
def collect_storage_devices (storageSection : Option (List (String × String)))
    (env : StorageEnv) : List StorageDevice :=
  match storageSection with
  | some items => configuredStorage env (parseConfigDevices items) 0
  | none => autoStorage env

/-! ## Network inventory (`collect_network_interfaces`, lines 513-614) -/

/-- Address family of a `psutil` address record. -/
inductive AddrFamily where
  | AF_LINK
  | AF_INET
  | otherFamily
deriving DecidableEq, Repr

/-- One address of an interface. -/
structure NetAddr where
  family : AddrFamily
  address : String
deriving DecidableEq, Repr

/-- One reported network interface. -/
structure NetworkInterface where
  name : String
  mac_address : String
  ip_address : Option String
  is_up : Bool
deriving DecidableEq, Repr

/-- Host interface tables consumed by `collect_network_interfaces`. -/
structure NetEnv where
  net_if_addrs : List (String × List NetAddr)
  net_if_stats : List (String × Bool)
deriving DecidableEq, Repr

/-- `name in net_if_stats and net_if_stats[name].isup`. -/
def statsUp (stats : List (String × Bool)) (n : String) : Bool :=
  match stats.find? (fun p => decide (p.1 = n)) with
  | some p => p.2
  | none => false

/-- The MAC-address loop: the last `AF_LINK` address wins. -/
def macOf (addrs : List NetAddr) : String :=
  addrs.foldl (fun acc a => if a.family = AddrFamily.AF_LINK then a.address else acc) ""

/-- The configured-branch address loop (lines 545-549): last `AF_LINK`
sets the MAC, last `AF_INET` sets the IP. -/
def ipLastOf (addrs : List NetAddr) : Option String :=
  addrs.foldl
    (fun acc a =>
      if a.family = AddrFamily.AF_LINK then acc
      else if a.family = AddrFamily.AF_INET then some a.address
      else acc) none

/-- All IPv4 addresses of an interface (line 592). -/
def ipv4List (addrs : List NetAddr) : List String :=
  addrs.filterMap (fun a => if a.family = AddrFamily.AF_INET then some a.address else none)

/-- Parse the `network` section items: keys starting `interface_`
(lines 522-526). -/
def parseConfigInterfaces : List (String × String) → List String
  | [] => []
  | (k, v) :: rest =>
    if strStartsWith k "interface_" then v :: parseConfigInterfaces rest
    else parseConfigInterfaces rest

/-- The configured-interface loop (lines 532-557): configured names are
always included when present on the host, with or without an IP. -/
def configuredNet (env : NetEnv) : List String → List NetworkInterface
  | [] => []
  | name :: rest =>
    match env.net_if_addrs.find? (fun p => decide (p.1 = name)) with
    | some entry =>
      { name := name, mac_address := macOf entry.2, ip_address := ipLastOf entry.2,
        is_up := statsUp env.net_if_stats name } :: configuredNet env rest
    | none => configuredNet env rest

/-- The auto-discovery loop (lines 572-602): skip `lo*`/`veth*`, include
only interfaces carrying at least one IPv4 address, report the first. -/
def autoNetLoop (stats : List (String × Bool)) :
    List (String × List NetAddr) → List NetworkInterface
  | [] => []
  | (name, addrs) :: rest =>
    if strStartsWith name "lo" || strStartsWith name "veth" then autoNetLoop stats rest
    else
      match ipv4List addrs with
      | [] => autoNetLoop stats rest
      | ip :: _ =>
        { name := name, mac_address := macOf addrs, ip_address := some ip,
          is_up := statsUp stats name } :: autoNetLoop stats rest

/-- `collect_network_interfaces` (lines 513-614). -/
def collect_network_interfaces (networkSection : Option (List (String × String)))
    (env : NetEnv) : List NetworkInterface :=
  match networkSection with
  | some items => configuredNet env (parseConfigInterfaces items)
  | none => autoNetLoop env.net_if_stats env.net_if_addrs

/-- What membership in the auto-discovery output means: the interface is
a non-loopback, non-veth host interface whose address list carries at
least one IPv4 address, reported with the last link-layer address, the
first IPv4 address and its up/down status. -/
def autoSpec (stats : List (String × Bool)) (entries : List (String × List NetAddr))
    (nic : NetworkInterface) : Prop :=
  ∃ name addrs ip tl,
    (name, addrs) ∈ entries ∧
    strStartsWith name "lo" = false ∧
    strStartsWith name "veth" = false ∧
    ipv4List addrs = ip :: tl ∧
    nic = { name := name, mac_address := macOf addrs, ip_address := some ip,
            is_up := statsUp stats name }

/-! ## Registration (`register_host`, lines 742-810)

The acknowledgement wait (lines 788-806) polls `recv` with a 2-second
timeout while fewer than 10 seconds have elapsed.  Time is in
deciseconds.  A received frame is either a JSON object with an optional
`type` field, or `malformed` — a frame on which `json.loads` or
`.get` raises; only `asyncio.TimeoutError` is caught inside the loop,
so a malformed frame escapes to the outer handler of `register_host`,
which logs it and returns `False`. -/

/-- A frame delivered by the server during the wait. -/
inductive Frame where
  | malformed : Frame
  | obj : Option String → Frame
deriving DecidableEq, Repr

/-- One `recv` poll outcome: a 2 s timeout, or a frame arriving after
`d` deciseconds (`d ≤ 20`). -/
inductive RecvEvent where
  | timeout : RecvEvent
  | frame : Nat → Frame → RecvEvent
deriving DecidableEq, Repr

/-- How the acknowledgement wait ends. -/
inductive RegResult where
  | confirmed
  | timedOut
  | errored
deriving DecidableEq, Repr

/-- Messages the session writes to the transport. -/
inductive MsgType where
  | register_host
  | ping
  | metrics_update
deriving DecidableEq, Repr

/-- An observable session event on one connection. -/
inductive SessEvent where
  | sent : MsgType → SessEvent
  | received : Frame → SessEvent
deriving DecidableEq, Repr

/-- Wall time consumed by one poll, in deciseconds. -/
def eventDuration : RecvEvent → Nat
  | RecvEvent.timeout => 20
  | RecvEvent.frame d _ => d

/-- `max_wait_time = 10` seconds, in deciseconds (line 789). -/
def maxWaitDs : Nat := 100

/-- The per-poll `asyncio.wait_for` timeout of 2.0 seconds (line 794). -/
def recvTimeoutDs : Nat := 20

/-- The acknowledgement wait loop (lines 792-806): while the elapsed
time is below the 10-second window, poll once; a frame whose `type` is
`registration_confirmed` returns success, any other JSON object frame
is logged and the loop re-checks the window, a malformed frame raises
out of the loop, and window expiry times the registration out.  The
result carries the verdict, the total elapsed time and the trace of
received frames; `none` means the environment script ran out while the
loop still wanted to poll. -/
def regWait : Nat → List RecvEvent → Option (RegResult × Nat × List SessEvent)
  | elapsed, [] =>
    if elapsed < maxWaitDs then none else some (RegResult.timedOut, elapsed, [])
  | elapsed, ev :: rest =>
    if elapsed < maxWaitDs then
      match ev with
      | RecvEvent.timeout => regWait (elapsed + recvTimeoutDs) rest
      | RecvEvent.frame d Frame.malformed =>
        some (RegResult.errored, elapsed + d, [SessEvent.received Frame.malformed])
      | RecvEvent.frame d (Frame.obj t) =>
        if t = some "registration_confirmed" then
          some (RegResult.confirmed, elapsed + d, [SessEvent.received (Frame.obj t)])
        else
          (regWait (elapsed + d) rest).map
            (fun r => (r.1, r.2.1, SessEvent.received (Frame.obj t) :: r.2.2))
    else some (RegResult.timedOut, elapsed, [])

/-- The boolean `register_host` hands back to `monitor_system`:
`True` only on a confirmed registration (lines 801, 806, 810). -/
def regReturn : RegResult → Bool
  | RegResult.confirmed => true
  | RegResult.timedOut => false
  | RegResult.errored => false

/-! ## Streaming loop (`monitor_system`, lines 912-951)

Each iteration sends a ping (failure breaks out immediately), then
publishes one `metrics_update` via `send_metrics`; a failed publish
increments `failure_count` and the loop breaks once it reaches 3, a
successful publish resets it to 0.  `connClosed` stands for a
`ConnectionClosed` (or other) exception raised by the iteration body,
which also breaks the loop. -/

/-- Environment outcome of one streaming iteration. -/
inductive StreamStep where
  | pingFail
  | publish (ok : Bool)
  | connClosed
deriving DecidableEq, Repr

/-- Why the streaming loop ended. -/
inductive StreamExit where
  | pingFailure
  | tooManyFailures
  | connectionLost
deriving DecidableEq, Repr

/-- The streaming loop: given the current `failure_count` and the
iteration outcomes, return the exit reason, the final counter and the
consumed iterations; `none` if the script ends with the loop still
streaming. -/
def streamRun : Nat → List StreamStep → Option (StreamExit × Nat × List StreamStep)
  | _, [] => none
  | f, StreamStep.pingFail :: _ =>
    some (StreamExit.pingFailure, f, [StreamStep.pingFail])
  | f, StreamStep.connClosed :: _ =>
    some (StreamExit.connectionLost, f, [StreamStep.connClosed])
  | f, StreamStep.publish ok :: rest =>
    if ok then
      (streamRun 0 rest).map (fun r => (r.1, r.2.1, StreamStep.publish true :: r.2.2))
    else if f + 1 ≥ 3 then
      some (StreamExit.tooManyFailures, f + 1, [StreamStep.publish false])
    else
      (streamRun (f + 1) rest).map (fun r => (r.1, r.2.1, StreamStep.publish false :: r.2.2))

/-- The iterations the loop actually executes (the consumed prefix,
whether or not the loop ever breaks). -/
def streamConsumed : Nat → List StreamStep → List StreamStep
  | _, [] => []
  | _, StreamStep.pingFail :: _ => [StreamStep.pingFail]
  | _, StreamStep.connClosed :: _ => [StreamStep.connClosed]
  | f, StreamStep.publish ok :: rest =>
    if ok then StreamStep.publish true :: streamConsumed 0 rest
    else if f + 1 ≥ 3 then [StreamStep.publish false]
    else StreamStep.publish false :: streamConsumed (f + 1) rest

/-- Messages written during one iteration: the ping send attempt, and
for iterations that reach `send_metrics`, the `metrics_update` send
attempt. -/
def stepEvents : StreamStep → List SessEvent
  | StreamStep.pingFail => [SessEvent.sent MsgType.ping]
  | StreamStep.connClosed => []
  | StreamStep.publish _ => [SessEvent.sent MsgType.ping, SessEvent.sent MsgType.metrics_update]

/-- Message trace of a run of the streaming loop. -/
def streamEvents : List StreamStep → List SessEvent
  | [] => []
  | s :: rest => stepEvents s ++ streamEvents rest

/-- Does a step list contain three consecutive failed publishes? -/
def headTwoFalse : List StreamStep → Bool
  | StreamStep.publish false :: StreamStep.publish false :: _ => true
  | _ => false

/-- Three consecutive failed publishes somewhere in the script. -/
def hasFailTriple : List StreamStep → Bool
  | [] => false
  | s :: rest => (decide (s = StreamStep.publish false) && headTwoFalse rest) || hasFailTriple rest

/-! ## One session (`monitor_system`, lines 893-951)

A session: optional greeting frame (received with a 1 s timeout and at
most logged, lines 897-903), then `register_host` sends the
registration message and waits for the acknowledgement, then — only on
a confirmed registration — the streaming loop runs. -/

/-- Trace contributed by the optional greeting. -/
def welcomeEvents : Option Frame → List SessEvent
  | some f => [SessEvent.received f]
  | none => []

/-- Trace contributed after the registration message went out: the
received frames of the wait, followed — only when the wait confirmed —
by the streaming-loop messages (`continue` at line 909 otherwise). -/
def afterRegEvents (steps : List StreamStep) :
    Option (RegResult × Nat × List SessEvent) → List SessEvent
  | none => []
  | some (r, _, tr) =>
    tr ++ (if r = RegResult.confirmed then streamEvents (streamConsumed 0 steps) else [])

/-- The complete observable message trace of one session. -/
def sessionEvents (welcome : Option Frame) (regEvents : List RecvEvent)
    (steps : List StreamStep) : List SessEvent :=
  welcomeEvents welcome ++
    SessEvent.sent MsgType.register_host :: afterRegEvents steps (regWait 0 regEvents)

/-! ## Supervisor (`monitor_system`, lines 861-895)

Each iteration of the outer `while True` first sleeps the backoff
computed from the current `connection_attempts`, then increments the
counter and attempts to connect; the counter is set back to 0 as soon
as the websocket connection is established (line 895), before the
greeting, registration or streaming happen. -/

/-- What one connection attempt of the outer loop observes. -/
inductive ConnOutcome where
  | connectFail
  | connected (registered : Bool)
deriving DecidableEq, Repr

/-- `reconnect_delay = 5` seconds (line 863). -/
def reconnectDelay : Nat := 5

/-- `max_backoff = 60` seconds (line 866). -/
def maxBackoff : Nat := 60

/-- The backoff slept at the top of an iteration that starts with
`attempts` recorded failures (lines 882-886): nothing on the first
attempt, otherwise `min(5 * 2 ** (attempts - 1), 60)`. -/
def backoffDelay (attempts : Nat) : Nat :=
  if attempts > 0 then min (reconnectDelay * 2 ^ (attempts - 1)) maxBackoff else 0

/-- `connection_attempts` after one iteration: incremented before the
connect, reset to 0 the moment the connection is established
(line 895) — regardless of how registration or streaming then fare. -/
def superNext (attempts : Nat) : ConnOutcome → Nat
  | ConnOutcome.connectFail => attempts + 1
  | ConnOutcome.connected _ => 0

/-- `connection_attempts` after a run of outer-loop iterations. -/
def attemptsAfter (a : Nat) (outs : List ConnOutcome) : Nat :=
  outs.foldl superNext a

/-- The successive backoff delays slept before each connection attempt
of a run. -/
def supervisorDelays : Nat → List ConnOutcome → List Nat
  | _, [] => []
  | a, o :: rest => backoffDelay a :: supervisorDelays (superNext a o) rest

/-! ## Helper lemmas -/

/-- In an all-failure run the delay slept before the `n`-th remaining
attempt is the backoff of the accumulated counter. -/
theorem supervisorDelays_replicate :
    ∀ (m a n : Nat), n < m →
      (supervisorDelays a (List.replicate m ConnOutcome.connectFail)).get? n
        = some (backoffDelay (a + n)) := by
  intro m
  induction m with
  | zero => intro a n h; exact absurd h (Nat.not_lt_zero n)
  | succ m ih =>
    intro a n h
    rw [List.replicate_succ]
    cases n with
    | zero => simp [supervisorDelays, List.get?]
    | succ n =>
      have h2 : n < m := by omega
      simp only [supervisorDelays, superNext, List.get?]
      rw [ih (a + 1) n h2]
      have : a + 1 + n = a + (n + 1) := by omega
      rw [this]

/-! ## Claims C3 and C4: supervisor backoff and counter reset -/

/-- Claim C3 counterexample: in a run of two straight connection
failures the code sleeps 5 seconds before attempt 2, while the claimed
formula `min(5 * 2 ^ (n - 1), 60)` demands 10 seconds for n = 2. -/
theorem backoff_formula_counterexample :
    supervisorDelays 0 [ConnOutcome.connectFail, ConnOutcome.connectFail] = [0, 5] ∧
    min (reconnectDelay * 2 ^ (2 - 1)) maxBackoff = 10 ∧ (5 : Nat) ≠ 10 :=
  ⟨by decide, by decide, by decide⟩

/-- Claim C3 (amended): in an all-failure run the delay before attempt
`n + 1` (0-indexed `n`) is 0 for the first attempt and
`min(5 * 2 ^ (n - 1), 60)` afterwards — i.e. the exponent counts the
failures so far, one less than the attempt number. -/
theorem backoff_delay_amended :
    ∀ m n : Nat, n < m →
      (supervisorDelays 0 (List.replicate m ConnOutcome.connectFail)).get? n
        = some (if n = 0 then 0 else min (reconnectDelay * 2 ^ (n - 1)) maxBackoff) := by
  intro m n h
  rw [supervisorDelays_replicate m 0 n h]
  cases n with
  | zero => simp [backoffDelay]
  | succ n => simp [backoffDelay]

/-- Witness for the amended C3 statement: before attempt 7 (index 6)
the supervisor sleeps the capped 60 seconds. -/
theorem backoff_delay_amended_witness :
    (supervisorDelays 0 (List.replicate 7 ConnOutcome.connectFail)).get? 6
      = some (if 6 = 0 then 0 else min (reconnectDelay * 2 ^ (6 - 1)) maxBackoff) :=
  backoff_delay_amended 7 6 (by decide)

/-- Claim C4 counterexample: a session whose transport handshake
succeeds but whose registration fails still resets the counter to 0
(line 895 runs before registration), so the next attempt sleeps no
backoff at all — the claim demands the counter stay un-reset. -/
theorem attempts_reset_counterexample :
    attemptsAfter 1 [ConnOutcome.connected false] = 0 ∧
    supervisorDelays 1 [ConnOutcome.connected false, ConnOutcome.connectFail] = [5, 0] ∧
    (0 : Nat) ≠ 2 :=
  ⟨by decide, by decide, by decide⟩

/-- Claim C4 (amended): `connection_attempts` is reset to 0 exactly
when the transport handshake succeeds — i.e. after any iteration whose
outcome is `connected`, registration outcome included failed ones — and
after no failed iteration. -/
theorem attempts_reset_amended :
    ∀ (a : Nat) (outs : List ConnOutcome) (o : ConnOutcome),
      attemptsAfter a (outs ++ [o]) = 0 ↔ ∃ b, o = ConnOutcome.connected b := by
  intro a outs o
  unfold attemptsAfter
  rw [List.foldl_append]
  cases o with
  | connectFail => simp [superNext]
  | connected b =>
    simp only [List.foldl_cons, List.foldl_nil, superNext]
    exact ⟨fun _ => ⟨b, rfl⟩, fun _ => trivial⟩

/-- Witness for the amended C4 statement: a failure followed by a
session whose registration failed still leaves the counter at 0. -/
theorem attempts_reset_amended_witness :
    attemptsAfter 3 ([ConnOutcome.connectFail] ++ [ConnOutcome.connected false]) = 0 :=
  (attempts_reset_amended 3 [ConnOutcome.connectFail] (ConnOutcome.connected false)).mpr
    ⟨false, rfl⟩

/-! ## Registration-wait lemmas -/

/-- Once the 10-second window has elapsed, the wait returns the timeout
verdict without polling again. -/
theorem regWait_expired (elapsed : Nat) (evs : List RecvEvent) (h : ¬ elapsed < maxWaitDs) :
    regWait elapsed evs = some (RegResult.timedOut, elapsed, []) := by
  cases evs with
  | nil => simp [regWait, h]
  | cons ev rest => simp [regWait, h]

/-- A timed-out poll just advances the clock by the receive timeout. -/
theorem regWait_timeout (elapsed : Nat) (rest : List RecvEvent) (h : elapsed < maxWaitDs) :
    regWait elapsed (RecvEvent.timeout :: rest) = regWait (elapsed + recvTimeoutDs) rest := by
  simp [regWait, h]

/-- A malformed frame raises out of the loop: the wait ends at once
with the errored verdict. -/
theorem regWait_malformed (elapsed d : Nat) (rest : List RecvEvent) (h : elapsed < maxWaitDs) :
    regWait elapsed (RecvEvent.frame d Frame.malformed :: rest)
      = some (RegResult.errored, elapsed + d, [SessEvent.received Frame.malformed]) := by
  simp [regWait, h]

/-- A frame typed `registration_confirmed` ends the wait with success. -/
theorem regWait_confirmed (elapsed d : Nat) (rest : List RecvEvent) (h : elapsed < maxWaitDs) :
    regWait elapsed (RecvEvent.frame d (Frame.obj (some "registration_confirmed")) :: rest)
      = some (RegResult.confirmed, elapsed + d,
          [SessEvent.received (Frame.obj (some "registration_confirmed"))]) := by
  simp [regWait, h]

/-- Any other JSON object frame is logged and ignored: the wait goes on
exactly as if only the frame's arrival time had passed. -/
theorem regWait_ignored (elapsed d : Nat) (t : Option String) (rest : List RecvEvent)
    (h : elapsed < maxWaitDs) (ht : t ≠ some "registration_confirmed") :
    regWait elapsed (RecvEvent.frame d (Frame.obj t) :: rest)
      = (regWait (elapsed + d) rest).map
          (fun r => (r.1, r.2.1, SessEvent.received (Frame.obj t) :: r.2.2)) := by
  simp [regWait, h, ht]

/-- The wait can overrun the 10-second window by at most one receive
timeout: every exit time is strictly below 12 seconds. -/
theorem regWait_bound :
    ∀ (evs : List RecvEvent) (elapsed : Nat) (r : RegResult) (e : Nat) (tr : List SessEvent),
      elapsed < maxWaitDs + recvTimeoutDs →
      (∀ ev ∈ evs, eventDuration ev ≤ recvTimeoutDs) →
      regWait elapsed evs = some (r, e, tr) →
      e < maxWaitDs + recvTimeoutDs := by
  intro evs
  induction evs with
  | nil =>
    intro elapsed r e tr hlt _ h
    by_cases hm : elapsed < maxWaitDs
    · simp [regWait, hm] at h
    · rw [regWait_expired elapsed [] hm] at h
      obtain ⟨_, he, _⟩ := by simpa using h
      omega
  | cons ev rest ih =>
    intro elapsed r e tr hlt hd h
    have hdrest : ∀ x ∈ rest, eventDuration x ≤ recvTimeoutDs :=
      fun x hx => hd x (List.mem_cons_of_mem ev hx)
    by_cases hm : elapsed < maxWaitDs
    case neg =>
      rw [regWait_expired elapsed (ev :: rest) hm] at h
      obtain ⟨_, he, _⟩ := by simpa using h
      omega
    · cases ev with
      | timeout =>
        rw [regWait_timeout elapsed rest hm] at h
        refine ih (elapsed + recvTimeoutDs) r e tr ?_ hdrest h
        simp only [maxWaitDs, recvTimeoutDs] at hm ⊢
        omega
      | frame d f =>
        have hdle : d ≤ recvTimeoutDs := hd (RecvEvent.frame d f) (List.mem_cons_self _ _)
        cases f with
        | malformed =>
          rw [regWait_malformed elapsed d rest hm] at h
          obtain ⟨_, he, _⟩ := by simpa using h
          simp only [maxWaitDs, recvTimeoutDs] at hm hdle ⊢
          omega
        | obj t =>
          by_cases hc : t = some "registration_confirmed"
          · subst hc
            rw [regWait_confirmed elapsed d rest hm] at h
            obtain ⟨_, he, _⟩ := by simpa using h
            simp only [maxWaitDs, recvTimeoutDs] at hm hdle ⊢
            omega
          · rw [regWait_ignored elapsed d t rest hm hc] at h
            cases hrec : regWait (elapsed + d) rest with
            | none => rw [hrec] at h; simp at h
            | some v =>
              obtain ⟨r2, e2, tr2⟩ := v
              rw [hrec] at h
              obtain ⟨_, he, _⟩ := by simpa using h
              have hb : elapsed + d < maxWaitDs + recvTimeoutDs := by
                simp only [maxWaitDs, recvTimeoutDs] at hm hdle ⊢
                omega
              have := ih (elapsed + d) r2 e2 tr2 hb hdrest hrec
              omega

/-- The trace of the wait holds only received frames, and a confirmed
wait has received the confirmation frame. -/
theorem regWait_trace :
    ∀ (evs : List RecvEvent) (elapsed : Nat) (r : RegResult) (e : Nat) (tr : List SessEvent),
      regWait elapsed evs = some (r, e, tr) →
      (∀ x ∈ tr, ∃ f, x = SessEvent.received f) ∧
      (r = RegResult.confirmed →
        SessEvent.received (Frame.obj (some "registration_confirmed")) ∈ tr) := by
  intro evs
  induction evs with
  | nil =>
    intro elapsed r e tr h
    by_cases hm : elapsed < maxWaitDs
    · simp [regWait, hm] at h
    · rw [regWait_expired elapsed [] hm] at h
      obtain ⟨hr, _, htr⟩ := by simpa using h
      subst htr
      exact ⟨by simp, fun hc => absurd (hr.trans hc) (by decide)⟩
  | cons ev rest ih =>
    intro elapsed r e tr h
    by_cases hm : elapsed < maxWaitDs
    case neg =>
      rw [regWait_expired elapsed (ev :: rest) hm] at h
      obtain ⟨hr, _, htr⟩ := by simpa using h
      subst htr
      exact ⟨by simp, fun hc => absurd (hr.trans hc) (by decide)⟩
    · cases ev with
      | timeout =>
        rw [regWait_timeout elapsed rest hm] at h
        exact ih (elapsed + recvTimeoutDs) r e tr h
      | frame d f =>
        cases f with
        | malformed =>
          rw [regWait_malformed elapsed d rest hm] at h
          obtain ⟨hr, _, htr⟩ := by simpa using h
          subst htr
          refine ⟨by simp, fun hc => absurd (hr.trans hc) (by decide)⟩
        | obj t =>
          by_cases hc : t = some "registration_confirmed"
          · subst hc
            rw [regWait_confirmed elapsed d rest hm] at h
            obtain ⟨_, _, htr⟩ := by simpa using h
            subst htr
            exact ⟨by simp, fun _ => by simp⟩
          · rw [regWait_ignored elapsed d t rest hm hc] at h
            cases hrec : regWait (elapsed + d) rest with
            | none => rw [hrec] at h; simp at h
            | some v =>
              obtain ⟨r2, e2, tr2⟩ := v
              rw [hrec] at h
              obtain ⟨hr, _, htr⟩ := by simpa using h
              obtain ⟨ht1, ht2⟩ := ih (elapsed + d) r2 e2 tr2 hrec
              subst htr
              constructor
              · intro x hx
                rcases List.mem_cons.mp hx with hx | hx
                · exact ⟨Frame.obj t, hx⟩
                · exact ht1 x hx
              · intro hcf
                exact List.mem_cons_of_mem _ (ht2 (hr.trans hcf))

/-! ## Claims C5 and C6: the acknowledgement wait -/

/-- Environment script refuting the 10-second bound: five wrong-type
frames arriving after 1.9 s each, then one 2-second receive timeout. -/
def overrunEvents : List RecvEvent :=
  [RecvEvent.frame 19 (Frame.obj (some "status")), RecvEvent.frame 19 (Frame.obj (some "status")),
   RecvEvent.frame 19 (Frame.obj (some "status")), RecvEvent.frame 19 (Frame.obj (some "status")),
   RecvEvent.frame 19 (Frame.obj (some "status")), RecvEvent.timeout]

/-- Claim C5 counterexample: a legal environment (every poll within the
2-second receive timeout) on which the wait still blocks 11.5 seconds
in total — more than the claimed 10-second maximum — before reporting
the timeout. -/
theorem registration_wait_counterexample :
    (∀ ev ∈ overrunEvents, eventDuration ev ≤ recvTimeoutDs) ∧
    regWait 0 overrunEvents
      = some (RegResult.timedOut, 115,
          List.replicate 5 (SessEvent.received (Frame.obj (some "status")))) ∧
    ¬(115 ≤ maxWaitDs) :=
  ⟨by decide, by decide, by decide⟩

/-- Claim C5 (amended): the wait blocks strictly less than 12 seconds —
the 10-second window is only checked between polls, so one final
2-second receive may overshoot it; `register_host` reports success only
for the confirmed verdict, which requires the confirmation frame to
have been received, and returns failure otherwise. -/
theorem registration_wait_bound_amended :
    ∀ (evs : List RecvEvent) (r : RegResult) (e : Nat) (tr : List SessEvent),
      (∀ ev ∈ evs, eventDuration ev ≤ recvTimeoutDs) →
      regWait 0 evs = some (r, e, tr) →
      e < maxWaitDs + recvTimeoutDs ∧
      (regReturn r = true ↔ r = RegResult.confirmed) ∧
      (r = RegResult.confirmed →
        SessEvent.received (Frame.obj (some "registration_confirmed")) ∈ tr) := by
  intro evs r e tr hd h
  refine ⟨regWait_bound evs 0 r e tr (by decide) hd h, ?_, (regWait_trace evs 0 r e tr h).2⟩
  cases r <;> simp [regReturn]

/-- Witness for the amended C5 statement at a one-frame script that
confirms after 0.2 seconds. -/
theorem registration_wait_bound_amended_witness :
    (2 : Nat) < maxWaitDs + recvTimeoutDs ∧
    (regReturn RegResult.confirmed = true ↔ RegResult.confirmed = RegResult.confirmed) ∧
    (RegResult.confirmed = RegResult.confirmed →
      SessEvent.received (Frame.obj (some "registration_confirmed"))
        ∈ [SessEvent.received (Frame.obj (some "registration_confirmed"))]) :=
  registration_wait_bound_amended
    [RecvEvent.frame 2 (Frame.obj (some "registration_confirmed"))]
    RegResult.confirmed 2
    [SessEvent.received (Frame.obj (some "registration_confirmed"))]
    (by decide) (by decide)

/-- Claim C6 counterexample: a malformed (non-JSON) frame arriving half
a second into the wait is not ignored — it ends the wait at once with a
failure verdict, although neither the 10-second window had expired nor
a confirmation had arrived. -/
theorem registration_malformed_counterexample :
    regWait 0 [RecvEvent.frame 5 Frame.malformed, RecvEvent.timeout, RecvEvent.timeout,
               RecvEvent.timeout, RecvEvent.timeout, RecvEvent.timeout]
      = some (RegResult.errored, 5, [SessEvent.received Frame.malformed]) ∧
    regReturn RegResult.errored = false ∧
    (5 : Nat) < maxWaitDs ∧ RegResult.errored ≠ RegResult.confirmed :=
  ⟨by decide, by decide, by decide, by decide⟩

/-- Claim C6 (amended): during the wait, a well-formed JSON object
frame whose type differs from `registration_confirmed` is logged and
ignored — the wait continues with the same outcome, only the frame's
arrival time having passed; a malformed (non-JSON or non-object) frame,
however, raises inside the loop, is caught by the outer handler of
`register_host`, and makes registration return failure immediately. -/
theorem registration_nonconfirmed_amended :
    (∀ (elapsed d : Nat) (t : Option String) (rest : List RecvEvent),
        elapsed < maxWaitDs → t ≠ some "registration_confirmed" →
        regWait elapsed (RecvEvent.frame d (Frame.obj t) :: rest)
          = (regWait (elapsed + d) rest).map
              (fun r => (r.1, r.2.1, SessEvent.received (Frame.obj t) :: r.2.2))) ∧
    (∀ (elapsed d : Nat) (rest : List RecvEvent),
        elapsed < maxWaitDs →
        regWait elapsed (RecvEvent.frame d Frame.malformed :: rest)
          = some (RegResult.errored, elapsed + d, [SessEvent.received Frame.malformed]) ∧
        regReturn RegResult.errored = false) := by
  constructor
  · intro elapsed d t rest hm ht
    exact regWait_ignored elapsed d t rest hm ht
  · intro elapsed d rest hm
    exact ⟨regWait_malformed elapsed d rest hm, rfl⟩

/-- Witness for the amended C6 statement: a wrong-type frame followed
by a confirmation, and a malformed frame late in the window. -/
theorem registration_nonconfirmed_amended_witness :
    (regWait 0 (RecvEvent.frame 3 (Frame.obj (some "status"))
        :: [RecvEvent.frame 2 (Frame.obj (some "registration_confirmed"))])
      = (regWait (0 + 3) [RecvEvent.frame 2 (Frame.obj (some "registration_confirmed"))]).map
          (fun r => (r.1, r.2.1, SessEvent.received (Frame.obj (some "status")) :: r.2.2))) ∧
    (regWait 50 (RecvEvent.frame 4 Frame.malformed :: [])
        = some (RegResult.errored, 50 + 4, [SessEvent.received Frame.malformed]) ∧
     regReturn RegResult.errored = false) :=
  ⟨registration_nonconfirmed_amended.1 0 3 (some "status")
      [RecvEvent.frame 2 (Frame.obj (some "registration_confirmed"))] (by decide) (by decide),
   registration_nonconfirmed_amended.2 50 4 [] (by decide)⟩

/-! ## Streaming-loop lemmas -/

/-- Exit verdicts versus the final failure counter: reaching the
threshold is the only exit with counter 3, every other exit keeps the
counter at 2 or below (the counter at a loop top is always below 3). -/
theorem streamRun_counter :
    ∀ (steps : List StreamStep) (f : Nat) (ex : StreamExit) (k : Nat) (p : List StreamStep),
      f ≤ 2 → streamRun f steps = some (ex, k, p) →
      (ex = StreamExit.tooManyFailures → k = 3) ∧
      (ex ≠ StreamExit.tooManyFailures → k ≤ 2) := by
  intro steps
  induction steps with
  | nil => intro f ex k p hf h; simp [streamRun] at h
  | cons s rest ih =>
    intro f ex k p hf h
    cases s with
    | pingFail =>
      obtain ⟨hex, hk, _⟩ := by simpa [streamRun] using h
      exact ⟨fun hc => absurd (hex.trans hc) (by decide), fun _ => by omega⟩
    | connClosed =>
      obtain ⟨hex, hk, _⟩ := by simpa [streamRun] using h
      exact ⟨fun hc => absurd (hex.trans hc) (by decide), fun _ => by omega⟩
    | publish ok =>
      cases ok with
      | true =>
        simp only [streamRun, if_pos] at h
        cases hrec : streamRun 0 rest with
        | none => rw [hrec] at h; simp at h
        | some v =>
          obtain ⟨ex2, k2, p2⟩ := v
          rw [hrec] at h
          obtain ⟨hex, hk, _⟩ := by simpa using h
          have := ih 0 ex2 k2 p2 (by omega) hrec
          exact ⟨fun hc => hk ▸ this.1 (hex.trans hc),
                 fun hc => hk ▸ this.2 (fun hh => hc (hex.symm.trans hh))⟩
      | false =>
        by_cases h3 : f + 1 ≥ 3
        · obtain ⟨hex, hk, _⟩ := by simpa [streamRun, h3] using h
          exact ⟨fun _ => by omega, fun hc => absurd hex.symm hc⟩
        · simp only [streamRun, if_neg h3] at h
          simp only [Bool.false_eq_true, if_false] at h
          cases hrec : streamRun (f + 1) rest with
          | none => rw [hrec] at h; simp at h
          | some v =>
            obtain ⟨ex2, k2, p2⟩ := v
            rw [hrec] at h
            obtain ⟨hex, hk, _⟩ := by simpa using h
            have := ih (f + 1) ex2 k2 p2 (by omega) hrec
            exact ⟨fun hc => hk ▸ this.1 (hex.trans hc),
                   fun hc => hk ▸ this.2 (fun hh => hc (hex.symm.trans hh))⟩

/-- When the loop exits through the failure threshold, the consumed
iterations end with exactly the three consecutive failed publishes that
brought the counter from its last reset (or from the loop entry) to
three. -/
theorem streamRun_tooMany_shape :
    ∀ (steps : List StreamStep) (f k : Nat) (p : List StreamStep), f ≤ 2 →
      streamRun f steps = some (StreamExit.tooManyFailures, k, p) →
      (∃ q, p = q ++ [StreamStep.publish true, StreamStep.publish false,
                      StreamStep.publish false, StreamStep.publish false]) ∨
      p = List.replicate (3 - f) (StreamStep.publish false) := by
  intro steps
  induction steps with
  | nil => intro f k p hf h; simp [streamRun] at h
  | cons s rest ih =>
    intro f k p hf h
    cases s with
    | pingFail => simp [streamRun] at h
    | connClosed => simp [streamRun] at h
    | publish ok =>
      cases ok with
      | true =>
        simp only [streamRun, if_pos] at h
        cases hrec : streamRun 0 rest with
        | none => rw [hrec] at h; simp at h
        | some v =>
          obtain ⟨ex2, k2, p2⟩ := v
          rw [hrec] at h
          obtain ⟨hex, hk, hp⟩ := by simpa using h
          subst hex hk
          rcases ih 0 k2 p2 (by omega) hrec with ⟨q, hq⟩ | hq
          · exact Or.inl ⟨StreamStep.publish true :: q, by rw [← hp, hq]; rfl⟩
          · refine Or.inl ⟨[], ?_⟩
            rw [← hp, hq]
            rfl
      | false =>
        by_cases h3 : f + 1 ≥ 3
        · obtain ⟨hk, hp⟩ := by simpa [streamRun, h3] using h
          right
          rw [← hp]
          have hf2 : f = 2 := by omega
          subst hf2
          rfl
        · simp only [streamRun, if_neg h3] at h
          simp only [Bool.false_eq_true, if_false] at h
          cases hrec : streamRun (f + 1) rest with
          | none => rw [hrec] at h; simp at h
          | some v =>
            obtain ⟨ex2, k2, p2⟩ := v
            rw [hrec] at h
            obtain ⟨hex, hk, hp⟩ := by simpa using h
            subst hex hk
            rcases ih (f + 1) k2 p2 (by omega) hrec with ⟨q, hq⟩ | hq
            · exact Or.inl ⟨StreamStep.publish false :: q, by rw [← hp, hq]; rfl⟩
            · right
              rw [← hp, hq]
              have : 3 - f = (3 - (f + 1)) + 1 := by omega
              rw [this]
              rfl

/-- `headTwoFalse` inversion. -/
theorem headTwoFalse_shape :
    ∀ l : List StreamStep, headTwoFalse l = true →
      ∃ r2, l = StreamStep.publish false :: StreamStep.publish false :: r2 := by
  intro l h
  match l, h with
  | StreamStep.publish false :: StreamStep.publish false :: r2, _ => exact ⟨r2, rfl⟩

/-- A script on which the loop never exits contains no three
consecutive failed publishes. -/
theorem streamRun_none_noTriple :
    ∀ (steps : List StreamStep) (f : Nat),
      streamRun f steps = none → hasFailTriple steps = false := by
  intro steps
  induction steps with
  | nil => intro f _; rfl
  | cons s rest ih =>
    intro f h
    cases s with
    | pingFail => simp [streamRun] at h
    | connClosed => simp [streamRun] at h
    | publish ok =>
      cases ok with
      | true =>
        simp only [streamRun, if_pos] at h
        cases hrec : streamRun 0 rest with
        | none => simp [hasFailTriple, headTwoFalse, ih 0 hrec]
        | some v => rw [hrec] at h; simp at h
      | false =>
        by_cases h3 : f + 1 ≥ 3
        · simp [streamRun, h3] at h
        · simp only [streamRun, if_neg h3] at h
          simp only [Bool.false_eq_true, if_false] at h
          cases hrec : streamRun (f + 1) rest with
          | some v => rw [hrec] at h; simp at h
          | none =>
            have hrest := ih (f + 1) hrec
            cases htf : headTwoFalse rest with
            | false => simp [hasFailTriple, htf, hrest]
            | true =>
              obtain ⟨r2, hr2⟩ := headTwoFalse_shape rest htf
              subst hr2
              exfalso
              by_cases h32 : f + 2 ≥ 3
              · simp [streamRun, h32] at hrec
              · simp only [streamRun, if_neg h32] at hrec
                simp only [Bool.false_eq_true, if_false] at hrec
                have h33 : f + 1 + 1 + 1 ≥ 3 := by omega
                simp [streamRun, h33] at hrec

/-! ## Claim C2: the consecutive-failure threshold -/

/-- Claim C2: starting from a zero counter, the streaming loop exits
through the failure threshold exactly when the counter has reached 3;
such an exit always follows three consecutive failed publishes
immediately preceded by a successful publish or the start of the loop
(so never fewer than three), and a run that never exits contains no
three consecutive failed publishes anywhere. -/
theorem streaming_failure_threshold :
    (∀ (steps : List StreamStep) (ex : StreamExit) (k : Nat) (p : List StreamStep),
        streamRun 0 steps = some (ex, k, p) →
        (ex = StreamExit.tooManyFailures ↔ k = 3)) ∧
    (∀ (steps : List StreamStep) (k : Nat) (p : List StreamStep),
        streamRun 0 steps = some (StreamExit.tooManyFailures, k, p) →
        (∃ q, p = q ++ [StreamStep.publish true, StreamStep.publish false,
                        StreamStep.publish false, StreamStep.publish false]) ∨
        p = [StreamStep.publish false, StreamStep.publish false, StreamStep.publish false]) ∧
    (∀ steps : List StreamStep, streamRun 0 steps = none → hasFailTriple steps = false) := by
  refine ⟨?_, ?_, ?_⟩
  · intro steps ex k p h
    have hc := streamRun_counter steps 0 ex k p (by omega) h
    constructor
    · exact hc.1
    · intro hk
      by_contra hne
      have := hc.2 hne
      omega
  · intro steps k p h
    have hs := streamRun_tooMany_shape steps 0 k p (by omega) h
    rcases hs with ⟨q, hq⟩ | hq
    · exact Or.inl ⟨q, hq⟩
    · right
      rw [hq]
      rfl
  · intro steps h
    exact streamRun_none_noTriple steps 0 h

/-- Witness for C2: a fail-fail-fail script exits with counter 3 and
the three-failure trace, and a single-success script never exits. -/
theorem streaming_failure_threshold_witness :
    (StreamExit.tooManyFailures = StreamExit.tooManyFailures ↔ (3 : Nat) = 3) ∧
    ((∃ q, [StreamStep.publish false, StreamStep.publish false, StreamStep.publish false]
        = q ++ [StreamStep.publish true, StreamStep.publish false,
                StreamStep.publish false, StreamStep.publish false]) ∨
      [StreamStep.publish false, StreamStep.publish false, StreamStep.publish false]
        = [StreamStep.publish false, StreamStep.publish false, StreamStep.publish false]) ∧
    hasFailTriple [StreamStep.publish true] = false :=
  ⟨streaming_failure_threshold.1
      [StreamStep.publish false, StreamStep.publish false, StreamStep.publish false]
      StreamExit.tooManyFailures 3
      [StreamStep.publish false, StreamStep.publish false, StreamStep.publish false] (by decide),
   streaming_failure_threshold.2.1
      [StreamStep.publish false, StreamStep.publish false, StreamStep.publish false] 3
      [StreamStep.publish false, StreamStep.publish false, StreamStep.publish false] (by decide),
   streaming_failure_threshold.2.2 [StreamStep.publish true] (by decide)⟩

/-! ## Session-trace lemmas -/

/-- If a list splits as `A ++ S` and also as `l1 ++ m :: l2` where the
marker `m` does not occur in `A`, then everything in `A` lies in the
prefix `l1`. -/
theorem mem_left_of_append_eq {α : Type} :
    ∀ (A S l1 l2 : List α) (m x : α),
      A ++ S = l1 ++ m :: l2 → m ∉ A → x ∈ A → x ∈ l1 := by
  intro A
  induction A with
  | nil => intro S l1 l2 m x _ _ hx; exact absurd hx (List.not_mem_nil x)
  | cons a A2 ih =>
    intro S l1 l2 m x h hm hx
    cases l1 with
    | nil =>
      obtain ⟨ham, _⟩ := List.cons.injEq a (A2 ++ S) m l2 ▸ h
      exact absurd (ham ▸ List.mem_cons_self a A2) hm
    | cons b l3 =>
      obtain ⟨hab, h2⟩ := List.cons.injEq a (A2 ++ S) b (l3 ++ m :: l2) ▸ h
      rcases List.mem_cons.mp hx with hxa | hx2
      · exact (hxa.trans hab) ▸ List.mem_cons_self b l3
      · exact List.mem_cons_of_mem b
          (ih S l3 l2 m x h2 (fun hmem => hm (List.mem_cons_of_mem a hmem)) hx2)

/-- No `metrics_update` send occurs among the greeting, the
registration send and the received frames of the wait. -/
theorem metrics_not_in_regPart (welcome : Option Frame) (tr : List SessEvent)
    (htr : ∀ x ∈ tr, ∃ f, x = SessEvent.received f) :
    SessEvent.sent MsgType.metrics_update ∉
      welcomeEvents welcome ++ SessEvent.sent MsgType.register_host :: tr := by
  intro hmem
  rcases List.mem_append.mp hmem with h1 | h2
  · cases welcome with
    | none => simp [welcomeEvents] at h1
    | some f => simp [welcomeEvents] at h1
  · rcases List.mem_cons.mp h2 with h3 | h4
    · exact absurd h3 (by decide)
    · obtain ⟨f, hf⟩ := htr _ h4
      exact absurd hf (by simp)

/-! ## Claim C1: no metrics before the registration acknowledgement -/

/-- Claim C1: on any one connection, wherever a `metrics_update` send
appears in the session trace, the reception of a
`registration_confirmed` frame appears strictly before it — the
streaming loop runs only when `register_host` succeeded, and it
succeeds only having received that frame. -/
theorem no_metrics_update_before_registration_confirmed :
    ∀ (welcome : Option Frame) (regEvents : List RecvEvent) (steps : List StreamStep)
      (l1 l2 : List SessEvent),
      sessionEvents welcome regEvents steps
        = l1 ++ SessEvent.sent MsgType.metrics_update :: l2 →
      SessEvent.received (Frame.obj (some "registration_confirmed")) ∈ l1 := by
  intro welcome regEvents steps l1 l2 h
  unfold sessionEvents at h
  cases hw : regWait 0 regEvents with
  | none =>
    rw [hw] at h
    have hmem : SessEvent.sent MsgType.metrics_update ∈ l1 ++ SessEvent.sent MsgType.metrics_update :: l2 :=
      List.mem_append_right l1 (List.mem_cons_self _ l2)
    rw [← h] at hmem
    simp only [afterRegEvents] at hmem
    exact absurd hmem (metrics_not_in_regPart welcome [] (by simp))
  | some v =>
    obtain ⟨r, e, tr⟩ := v
    rw [hw] at h
    have htr := regWait_trace regEvents 0 r e tr hw
    by_cases hr : r = RegResult.confirmed
    · subst hr
      simp only [afterRegEvents, eq_self_iff_true, if_true] at h
      have hA : welcomeEvents welcome ++ SessEvent.sent MsgType.register_host ::
            (tr ++ streamEvents (streamConsumed 0 steps))
          = (welcomeEvents welcome ++ SessEvent.sent MsgType.register_host :: tr)
              ++ streamEvents (streamConsumed 0 steps) := by
        simp
      rw [hA] at h
      refine mem_left_of_append_eq _ _ l1 l2 _ _ h
        (metrics_not_in_regPart welcome tr htr.1) ?_
      exact List.mem_append_right _ (List.mem_cons_of_mem _ (htr.2 rfl))
    · simp only [afterRegEvents, if_neg hr, List.append_nil] at h
      have hmem : SessEvent.sent MsgType.metrics_update ∈ l1 ++ SessEvent.sent MsgType.metrics_update :: l2 :=
        List.mem_append_right l1 (List.mem_cons_self _ l2)
      rw [← h] at hmem
      exact absurd hmem (metrics_not_in_regPart welcome tr htr.1)

/-- Witness for C1: a session that confirms after 0.1 s and then runs
one successful publish cycle; in its trace the prefix before the
`metrics_update` send holds the confirmation reception. -/
theorem no_metrics_update_before_registration_confirmed_witness :
    SessEvent.received (Frame.obj (some "registration_confirmed"))
      ∈ [SessEvent.sent MsgType.register_host,
         SessEvent.received (Frame.obj (some "registration_confirmed")),
         SessEvent.sent MsgType.ping] :=
  no_metrics_update_before_registration_confirmed none
    [RecvEvent.frame 1 (Frame.obj (some "registration_confirmed"))]
    [StreamStep.publish true]
    [SessEvent.sent MsgType.register_host,
     SessEvent.received (Frame.obj (some "registration_confirmed")),
     SessEvent.sent MsgType.ping]
    [] (by decide)

/-! ## Metric-collection lemmas -/

/-- A partition whose usage probe raises `PermissionError` or
`FileNotFoundError` is skipped: the disk loop behaves as if the
partition were not listed at all. -/
theorem diskLoop_skip (du : String → Except DiskErr (Int × Int)) (mp : String)
    (hmp : du mp = Except.error DiskErr.permission ∨ du mp = Except.error DiskErr.notFound) :
    ∀ (pre post : List String) (acc : List (String × Metric)),
      diskLoop du acc (pre ++ mp :: post) = diskLoop du acc (pre ++ post) := by
  intro pre
  induction pre with
  | nil =>
    intro post acc
    rcases hmp with h | h <;> simp [diskLoop, h]
  | cons q pre2 ih =>
    intro post acc
    simp only [List.cons_append, diskLoop]
    cases hq : du q with
    | error e => cases e <;> simp [ih]
    | ok usage => simp [ih]

/-- A partition whose usage probe raises anything else aborts the whole
collection. -/
theorem diskLoop_abort (du : String → Except DiskErr (Int × Int)) (mp : String)
    (hmp : du mp = Except.error DiskErr.other) :
    ∀ (pre post : List String) (acc : List (String × Metric)),
      diskLoop du acc (pre ++ mp :: post) = none := by
  intro pre
  induction pre with
  | nil => intro post acc; simp [diskLoop, hmp]
  | cons q pre2 ih =>
    intro post acc
    simp only [List.cons_append, diskLoop]
    cases hq : du q with
    | error e => cases e <;> simp [ih]
    | ok usage => simp [ih]

/-! ## Claim C7: error handling of `collect_metrics` -/

/-- Environment in which every acquisition succeeds except
`psutil.swap_memory()`. -/
def swapFailEnv : MetricsEnv :=
  { cpu_percent := Except.ok 50,
    virtual_memory := Except.ok (1000, 40),
    swap_memory := Except.error (),
    boot_time := Except.ok 1700000000,
    pids := Except.ok [1, 2, 3],
    getloadavg := some (Except.ok (1, 1, 1)),
    disk_partitions := Except.ok ["/"],
    disk_usage := fun _ => Except.ok (500, 50),
    net_io_counters := Except.ok [("eth0", 10, 20)] }

/-- Claim C7 counterexample: one failing acquisition (`swap_memory`)
while every other measurement succeeds does not merely omit the swap
metrics — the single outer handler discards everything and the call
returns the empty mapping, without even the `cpu_usage` entry whose
acquisition succeeded. -/
theorem collect_metrics_partial_counterexample :
    collect_metrics swapFailEnv = [] ∧
    swapFailEnv.cpu_percent = Except.ok 50 ∧
    swapFailEnv.disk_usage "/" = Except.ok (500, 50) :=
  ⟨rfl, rfl, rfl⟩

/-- Claim C7 (amended): `collect_metrics` always returns a mapping and
never raises, but failure isolation only exists for the per-partition
disk-usage probe — a partition failing with `PermissionError` or
`FileNotFoundError` is omitted while everything else is kept; any other
individual acquisition failure (CPU, memory, swap, boot time, process
list, load averages, partition listing, any other disk-usage error, or
network counters) makes the call abandon the snapshot and return the
empty mapping. -/
theorem collect_metrics_error_handling_amended :
    (∀ (env : MetricsEnv) (mp : String) (pre post : List String),
        (env.disk_usage mp = Except.error DiskErr.permission ∨
         env.disk_usage mp = Except.error DiskErr.notFound) →
        env.disk_partitions = Except.ok (pre ++ mp :: post) →
        collect_metrics env
          = collect_metrics { env with disk_partitions := Except.ok (pre ++ post) }) ∧
    (∀ (env : MetricsEnv) (u : Unit), env.cpu_percent = Except.error u → collect_metrics env = []) ∧
    (∀ (env : MetricsEnv) (u : Unit), env.virtual_memory = Except.error u → collect_metrics env = []) ∧
    (∀ (env : MetricsEnv) (u : Unit), env.swap_memory = Except.error u → collect_metrics env = []) ∧
    (∀ (env : MetricsEnv) (u : Unit), env.boot_time = Except.error u → collect_metrics env = []) ∧
    (∀ (env : MetricsEnv) (u : Unit), env.pids = Except.error u → collect_metrics env = []) ∧
    (∀ (env : MetricsEnv) (u : Unit), env.getloadavg = some (Except.error u) → collect_metrics env = []) ∧
    (∀ (env : MetricsEnv) (u : Unit), env.disk_partitions = Except.error u → collect_metrics env = []) ∧
    (∀ (env : MetricsEnv) (mp : String) (pre post : List String),
        env.disk_usage mp = Except.error DiskErr.other →
        env.disk_partitions = Except.ok (pre ++ mp :: post) → collect_metrics env = []) ∧
    (∀ (env : MetricsEnv) (u : Unit), env.net_io_counters = Except.error u → collect_metrics env = []) := by
  refine ⟨?_, ?_, ?_, ?_, ?_, ?_, ?_, ?_, ?_, ?_⟩
  · intro env mp pre post hmp hdp
    simp only [collect_metrics, afterLoad, hdp, diskLoop_skip env.disk_usage mp hmp]
  · intro env u hu
    simp only [collect_metrics, hu]
  · intro env u hu
    simp only [collect_metrics, hu]
    repeat' split
    all_goals rfl
  · intro env u hu
    simp only [collect_metrics, hu]
    repeat' split
    all_goals rfl
  · intro env u hu
    simp only [collect_metrics, hu]
    repeat' split
    all_goals rfl
  · intro env u hu
    simp only [collect_metrics, hu]
    repeat' split
    all_goals rfl
  · intro env u hu
    simp only [collect_metrics, hu]
    repeat' split
    all_goals rfl
  · intro env u hu
    simp only [collect_metrics, afterLoad, hu]
    repeat' split
    all_goals rfl
  · intro env mp pre post hdu hdp
    simp only [collect_metrics, afterLoad, hdp, diskLoop_abort env.disk_usage mp hdu]
    repeat' split
    all_goals rfl
  · intro env u hu
    simp only [collect_metrics, afterLoad, hu]
    repeat' split
    all_goals rfl

/-- Environment for the C7 witness: a permission-denied mountpoint
among otherwise healthy probes. -/
def permSkipEnv : MetricsEnv :=
  { cpu_percent := Except.ok 12,
    virtual_memory := Except.ok (2000, 60),
    swap_memory := Except.ok (100, 5),
    boot_time := Except.ok 1700000001,
    pids := Except.ok [1, 2],
    getloadavg := none,
    disk_partitions := Except.ok ["/", "/locked"],
    disk_usage := fun mp => if mp = "/" then Except.ok (700, 70) else Except.error DiskErr.permission,
    net_io_counters := Except.ok [("eth0", 5, 6)] }

/-- Witness for the amended C7 statement: dropping the permission-denied
mountpoint from the listing leaves the snapshot unchanged, and an
environment with a failing process listing yields the empty mapping. -/
theorem collect_metrics_error_handling_amended_witness :
    collect_metrics permSkipEnv
      = collect_metrics { permSkipEnv with disk_partitions := Except.ok (["/"] ++ []) } ∧
    collect_metrics
      { permSkipEnv with pids := Except.error () } = [] :=
  ⟨collect_metrics_error_handling_amended.1 permSkipEnv "/locked" ["/"] []
      (Or.inl rfl) rfl,
   collect_metrics_error_handling_amended.2.2.2.2.2.1
      { permSkipEnv with pids := Except.error () } () rfl⟩

/-! ## Claims C8 and C10: client identifier resolution -/

/-- Claim C8: the identifier resolution precedence — a configured
`client_id` wins outright; otherwise a non-empty stripped file content
is reused; otherwise the fresh identifier is returned and, when the
write succeeds, persisted (written verbatim to the file), so a second
run reading that file returns the identical identifier; a failed write
still returns the fresh identifier, leaving the file as it was. -/
theorem client_id_resolution :
    (∀ (env : ClientIdEnv) (cid : String),
        env.configClientId = some cid → (get_client_id env).1 = cid) ∧
    (∀ (env : ClientIdEnv) (s : String),
        env.configClientId = none → env.file = some s → env.readOk = true →
        strTrim s ≠ "" → (get_client_id env).1 = strTrim s) ∧
    (∀ env : ClientIdEnv,
        env.configClientId = none → env.readOk = true →
        (env.file = none ∨ ∃ s, env.file = some s ∧ strTrim s = "") →
        (get_client_id env).1 = env.fresh ∧
        (get_client_id env).2 = (if env.writeOk then some env.fresh else env.file)) ∧
    (∀ env env2 : ClientIdEnv,
        env.configClientId = none → env.file = none → env.writeOk = true →
        env2.configClientId = none → env2.readOk = true →
        env2.file = (get_client_id env).2 →
        strTrim env.fresh = env.fresh → env.fresh ≠ "" →
        (get_client_id env2).1 = (get_client_id env).1) := by
  refine ⟨?_, ?_, ?_, ?_⟩
  · intro env cid hc
    simp [get_client_id, hc]
  · intro env s hc hf hr hs
    simp [get_client_id, hc, hf, hr, hs]
  · intro env hc hr hfile
    rcases hfile with hf | ⟨s, hf, hs⟩
    · simp only [get_client_id, hc, hf, freshClientId]
      cases hw : env.writeOk <;> simp
    · simp only [get_client_id, hc, hf, hr, if_true, hs, freshClientId]
      simp only [ne_eq, not_true_eq_false, if_false]
      cases hw : env.writeOk <;> simp
  · intro env env2 hc hf hw hc2 hr2 hf2 htrim hne
    have h1 : get_client_id env = (env.fresh, some env.fresh) := by
      simp [get_client_id, hc, hf, freshClientId, hw]
    rw [h1] at hf2 ⊢
    simp [get_client_id, hc2, hf2, hr2, htrim, hne]

/-- Witness for C8: a configured id wins; a persisted id is reused; a
fresh id is persisted on first run and reread verbatim on a simulated
second run; a failed write still yields the fresh id. -/
theorem client_id_resolution_witness :
    (get_client_id { configClientId := some "cfg-id", file := some "old", readOk := true,
                     fresh := "f1", writeOk := true, fallbackFresh := "fb" }).1 = "cfg-id" ∧
    (get_client_id { configClientId := none, file := some "  persisted-9  ", readOk := true,
                     fresh := "f2", writeOk := true, fallbackFresh := "fb" }).1
      = strTrim "  persisted-9  " ∧
    ((get_client_id { configClientId := none, file := none, readOk := true,
                      fresh := "fresh-77", writeOk := false, fallbackFresh := "fb" }).1
        = "fresh-77" ∧
     (get_client_id { configClientId := none, file := none, readOk := true,
                      fresh := "fresh-77", writeOk := false, fallbackFresh := "fb" }).2
        = (if ({ configClientId := none, file := none, readOk := true,
                 fresh := "fresh-77", writeOk := false, fallbackFresh := "fb" } : ClientIdEnv).writeOk
           then some "fresh-77" else none)) ∧
    (get_client_id { configClientId := none,
                     file := (get_client_id { configClientId := none, file := none, readOk := true,
                                              fresh := "fresh-42", writeOk := true, fallbackFresh := "fb" }).2,
                     readOk := true, fresh := "other", writeOk := true, fallbackFresh := "fb" }).1
      = (get_client_id { configClientId := none, file := none, readOk := true,
                         fresh := "fresh-42", writeOk := true, fallbackFresh := "fb" }).1 :=
  ⟨client_id_resolution.1 _ "cfg-id" rfl,
   client_id_resolution.2.1 _ "  persisted-9  " rfl rfl rfl (by decide),
   client_id_resolution.2.2.1 _ rfl rfl (Or.inl rfl),
   client_id_resolution.2.2.2 _ _ rfl rfl rfl rfl rfl rfl (by decide) (by decide)⟩

/-- Environment refuting C10: the configuration supplies an empty
`client_id =` value while the identifier file is whitespace-only. -/
def emptyConfigEnv : ClientIdEnv :=
  { configClientId := some "", file := some "   ", readOk := true,
    fresh := "fresh-1", writeOk := true, fallbackFresh := "fb-1" }

/-- Claim C10 counterexample: with a whitespace-only identifier file
but an (empty) configured `client_id`, `get_client_id` returns the
empty string verbatim — it neither generates a fresh identifier nor
overwrites the file, so the returned identifier is not always
non-empty. -/
theorem client_id_nonempty_counterexample :
    emptyConfigEnv.file = some "   " ∧ strTrim "   " = "" ∧
    get_client_id emptyConfigEnv = ("", some "   ") :=
  ⟨rfl, rfl, rfl⟩

/-- Claim C10 (amended): when no configured `client_id` intervenes and
the identifier file is whitespace-only, `get_client_id` generates a
fresh identifier, attempts to persist it (overwriting the file on a
successful write) and returns it; consequently the returned identifier
is non-empty whenever any configured value is non-empty and the
generated identifiers are non-empty — but a configured `client_id` is
returned verbatim even when empty. -/
theorem client_id_nonempty_amended :
    (∀ (env : ClientIdEnv) (s : String),
        env.configClientId = none → env.file = some s → env.readOk = true →
        strTrim s = "" →
        get_client_id env = (env.fresh, if env.writeOk then some env.fresh else env.file)) ∧
    (∀ env : ClientIdEnv,
        (∀ c, env.configClientId = some c → c ≠ "") →
        env.fresh ≠ "" → env.fallbackFresh ≠ "" →
        (get_client_id env).1 ≠ "") := by
  constructor
  · intro env s hc hf hr hs
    simp only [get_client_id, hc, hf, hr, if_true, hs, freshClientId]
    simp only [ne_eq, not_true_eq_false, if_false]
    cases hw : env.writeOk <;> simp
  · intro env hcfg hfresh hfb
    unfold get_client_id freshClientId
    cases hc : env.configClientId with
    | some c => exact hcfg c hc
    | none =>
      cases hf : env.file with
      | none =>
        cases hw : env.writeOk <;> simpa using hfresh
      | some s =>
        cases hr : env.readOk with
        | false => simpa using hfb
        | true =>
          by_cases hs : strTrim s ≠ ""
          · simp [hs]
          · cases hw : env.writeOk <;> simpa [hs] using hfresh

/-- Environment for the C10 witness: a whitespace-only identifier file
and no configured identifier. -/
def blankFileEnv : ClientIdEnv :=
  { configClientId := none, file := some "  ", readOk := true,
    fresh := "fresh-xy", writeOk := true, fallbackFresh := "fallback-z" }

/-- Witness for the amended C10 statement: the whitespace-only file is
overwritten with the fresh identifier, which is returned non-empty. -/
theorem client_id_nonempty_amended_witness :
    get_client_id blankFileEnv
      = (blankFileEnv.fresh,
         if blankFileEnv.writeOk then some blankFileEnv.fresh else blankFileEnv.file) ∧
    (get_client_id blankFileEnv).1 ≠ "" :=
  ⟨client_id_nonempty_amended.1 blankFileEnv "  " rfl rfl rfl (by decide),
   client_id_nonempty_amended.2 blankFileEnv
     (fun c hc => Option.noConfusion hc) (by decide) (by decide)⟩

/-! ## Network-discovery lemma -/

/-- Membership characterisation of the auto-discovery loop. -/
theorem mem_autoNetLoop :
    ∀ (entries : List (String × List NetAddr)) (stats : List (String × Bool))
      (nic : NetworkInterface),
      nic ∈ autoNetLoop stats entries ↔ autoSpec stats entries nic := by
  intro entries
  induction entries with
  | nil =>
    intro stats nic
    simp [autoNetLoop, autoSpec]
  | cons e rest ih =>
    intro stats nic
    obtain ⟨name, addrs⟩ := e
    cases hb : (strStartsWith name "lo" || strStartsWith name "veth") with
    | true =>
      rw [show autoNetLoop stats ((name, addrs) :: rest) = autoNetLoop stats rest from by
        simp [autoNetLoop, hb]]
      rw [ih stats nic]
      constructor
      · rintro ⟨n, a, ip, tl, hmem, h1, h2, h3, h4⟩
        exact ⟨n, a, ip, tl, List.mem_cons_of_mem _ hmem, h1, h2, h3, h4⟩
      · rintro ⟨n, a, ip, tl, hmem, h1, h2, h3, h4⟩
        rcases List.mem_cons.mp hmem with hh | ht
        · exfalso
          injection hh with hn ha
          subst hn
          rw [h1, h2] at hb
          simp at hb
        · exact ⟨n, a, ip, tl, ht, h1, h2, h3, h4⟩
    | false =>
      have hsplit : strStartsWith name "lo" = false ∧ strStartsWith name "veth" = false := by
        cases h1 : strStartsWith name "lo" <;> cases h2 : strStartsWith name "veth" <;>
          simp_all
      obtain ⟨hb1, hb2⟩ := hsplit
      cases hip : ipv4List addrs with
      | nil =>
        rw [show autoNetLoop stats ((name, addrs) :: rest) = autoNetLoop stats rest from by
          simp [autoNetLoop, hb, hip]]
        rw [ih stats nic]
        constructor
        · rintro ⟨n, a, ip, tl, hmem, h1, h2, h3, h4⟩
          exact ⟨n, a, ip, tl, List.mem_cons_of_mem _ hmem, h1, h2, h3, h4⟩
        · rintro ⟨n, a, ip, tl, hmem, h1, h2, h3, h4⟩
          rcases List.mem_cons.mp hmem with hh | ht
          · exfalso
            injection hh with hn ha
            subst hn
            subst ha
            rw [hip] at h3
            exact List.noConfusion h3
          · exact ⟨n, a, ip, tl, ht, h1, h2, h3, h4⟩
      | cons ip0 tl0 =>
        rw [show autoNetLoop stats ((name, addrs) :: rest)
            = { name := name, mac_address := macOf addrs, ip_address := some ip0,
                is_up := statsUp stats name } :: autoNetLoop stats rest from by
          simp [autoNetLoop, hb, hip]]
        rw [List.mem_cons, ih stats nic]
        constructor
        · rintro (hnic | hres)
          · exact ⟨name, addrs, ip0, tl0, List.mem_cons_self _ _, hb1, hb2, hip, hnic⟩
          · obtain ⟨n, a, ip, tl, hmem, h1, h2, h3, h4⟩ := hres
            exact ⟨n, a, ip, tl, List.mem_cons_of_mem _ hmem, h1, h2, h3, h4⟩
        · rintro ⟨n, a, ip, tl, hmem, h1, h2, h3, h4⟩
          rcases List.mem_cons.mp hmem with hh | ht
          · left
            injection hh with hn ha
            subst hn
            subst ha
            rw [hip] at h3
            injection h3 with hip0 htl0
            subst hip0
            exact h4
          · exact Or.inr ⟨n, a, ip, tl, ht, h1, h2, h3, h4⟩

/-! ## Claim C9: configured storage and network fallback -/

/-- Claim C9: with a `storage` section listing exactly two devices
whose mountpoints are accessible, `collect_storage_devices` returns
exactly those two entries — configured kind, observed total bytes,
fresh ids — for every host environment (whatever other volumes exist,
the auto-detection inputs are never consulted); and with no `network`
section, `collect_network_interfaces` is populated by the
auto-discovery characterised by `autoSpec`. -/
theorem configured_storage_and_network_fallback :
    (∀ (env : StorageEnv) (k1 k2 v1 v2 mp1 t1 mp2 t2 : String) (total1 total2 : Nat),
        strStartsWith k1 "device_" = true → strStartsWith k2 "device_" = true →
        splitChar '|' v1 = [mp1, t1] → splitChar '|' v2 = [mp2, t2] →
        env.disk_usage mp1 = Except.ok total1 → env.disk_usage mp2 = Except.ok total2 →
        collect_storage_devices (some [(k1, v1), (k2, v2)]) env
          = [{ id := env.uuids 0, name := mp1, device_type := t1, total_bytes := total1 },
             { id := env.uuids 1, name := mp2, device_type := t2, total_bytes := total2 }]) ∧
    (∀ (env : NetEnv) (nic : NetworkInterface),
        nic ∈ collect_network_interfaces none env ↔
          autoSpec env.net_if_stats env.net_if_addrs nic) := by
  constructor
  · intro env k1 k2 v1 v2 mp1 t1 mp2 t2 total1 total2 hk1 hk2 hv1 hv2 hu1 hu2
    simp only [collect_storage_devices, parseConfigDevices, hk1, hk2, hv1, hv2, if_true,
      configuredStorage, hu1, hu2]
  · intro env nic
    simpa only [collect_network_interfaces] using
      mem_autoNetLoop env.net_if_addrs env.net_if_stats nic

/-- Host environment for the C9 witness: the host carries an unrelated
extra volume that the configured branch must ignore. -/
def storageWitnessEnv : StorageEnv :=
  { platform := "Linux",
    disk_partitions := Except.ok
      [{ device := "/dev/sdb1", mountpoint := "/extra", fstype := "ext4" }],
    disk_usage := fun mp =>
      if mp = "/" then Except.ok 500000000000
      else if mp = "/data" then Except.ok 2000000000000
      else Except.error DiskErr.other,
    uuids := fun k => "uuid-" ++ toString k,
    rotational := fun _ => none,
    smartctl := fun _ => Except.error (),
    diskutil_info_mount := fun _ => Except.error (),
    diskutil_info_disk := fun _ => Except.error () }

/-- Host interfaces for the C9 witness. -/
def netWitnessEnv : NetEnv :=
  { net_if_addrs :=
      [("lo", [{ family := AddrFamily.AF_INET, address := "127.0.0.1" }]),
       ("eth0", [{ family := AddrFamily.AF_LINK, address := "aa:bb:cc:dd" },
                 { family := AddrFamily.AF_INET, address := "10.0.0.2" }])],
    net_if_stats := [("eth0", true)] }

/-- Witness for C9: two configured storage devices come back exactly,
and the discovered `eth0` interface is reported by the fallback. -/
theorem configured_storage_and_network_fallback_witness :
    collect_storage_devices (some [("device_1", "/|SSD"), ("device_2", "/data|HDD")])
        storageWitnessEnv
      = [{ id := storageWitnessEnv.uuids 0, name := "/", device_type := "SSD",
           total_bytes := 500000000000 },
         { id := storageWitnessEnv.uuids 1, name := "/data", device_type := "HDD",
           total_bytes := 2000000000000 }] ∧
    ({ name := "eth0", mac_address := "aa:bb:cc:dd", ip_address := some "10.0.0.2",
       is_up := true } : NetworkInterface)
      ∈ collect_network_interfaces none netWitnessEnv :=
  ⟨configured_storage_and_network_fallback.1 storageWitnessEnv
      "device_1" "device_2" "/|SSD" "/data|HDD" "/" "SSD" "/data" "HDD"
      500000000000 2000000000000
      (by decide) (by decide) (by decide) (by decide) rfl rfl,
   (configured_storage_and_network_fallback.2 netWitnessEnv _).mpr
     ⟨"eth0",
      [{ family := AddrFamily.AF_LINK, address := "aa:bb:cc:dd" },
       { family := AddrFamily.AF_INET, address := "10.0.0.2" }],
      "10.0.0.2", [], by decide, by decide, by decide, by decide, by decide⟩⟩

end SystemMonitor
